import Mathlib

/-
  Verification of the Factory repository (Factory.h, FactoryHelperMacros.h,
  AbstractFactory.h): a per-interface registry mapping string identifiers to
  zero-argument constructor functions, populated by AddProduction registrar
  objects and queried through Factory.createObject or the AbstractFactory
  facade.

  The embedding is a shallow one.  The per-interface static QHash
  _produce_functions is modelled as an association list threaded explicitly
  through each operation; QHash operations count, the potentially inserting
  index operator, and index assignment are modelled one to one.  A C++
  constructor function pointer is modelled as a ptr tag (pointer identity,
  compared with ==) together with the Lean function it denotes.
-/

/-- Model of StringType (QString under FACTORY_USE_QT): identifier keys. -/
abbrev StringT := String

/-- A stored constructor entry: decltype (&Interface::createObject).  The
ptr field models function pointer identity (what C++ == compares); the fn
field models the behaviour of invoking the pointer, producing a fresh
instance of the interface I. -/
structure ProduceFunction (I : Type) where
  ptr : Nat
  fn : Unit → I

instance (I : Type) [Inhabited I] : Inhabited (ProduceFunction I) :=
  ⟨⟨0, fun _ => default⟩⟩

/-- Model of DictType< StringType, decltype (&Interface::createObject) >,
i.e. the QHash held by Factory.produceFunctions. -/
abbrev Dict (C : Type) := List (StringT × C)

/-- QHash::count (key): number of entries stored under the key. -/
def dictCount {C : Type} (m : Dict C) (k : StringT) : Nat :=
  (m.filter (fun p => p.1 == k)).length

/-- Pure lookup: the value stored under the key, when present. -/
def dictFind {C : Type} (m : Dict C) (k : StringT) : Option C :=
  (m.find? (fun p => p.1 == k)).map (fun p => p.2)

/-- QHash::operator[] used as an rvalue: returns the stored value, or
inserts and returns a default-constructed value when the key is absent.
The returned dictionary is the possibly extended one. -/
def dictIndex {C : Type} [Inhabited C] (m : Dict C) (k : StringT) :
    C × Dict C :=
  match dictFind m k with
  | some v => (v, m)
  | none => (default, m ++ [(k, default)])

/-- QHash::operator[] used as the target of an assignment, m[k] = v:
overwrites the entry under k when present, inserts it otherwise. -/
def dictAssign {C : Type} (m : Dict C) (k : StringT) (v : C) : Dict C :=
  match m with
  | [] => [(k, v)]
  | p :: rest => if p.1 == k then (k, v) :: rest else p :: dictAssign rest k v

/-- Factory< Interface >::createObject (StringType i_type_id), lines
191-200 of Factory.h.  Initialises object to nullptr (none); when
produceFunctions ().count (i_type_id) is nonzero it invokes
produceFunctions () [i_type_id]() and returns the produced instance.
The second component is the table after the call, since the index
operator used for the lookup could in principle insert. -/
def Factory.createObject {I : Type} [Inhabited I]
    (produce_functions : Dict (ProduceFunction I)) (i_type_id : StringT) :
    Option I × Dict (ProduceFunction I) :=
  let object : Option I := none
  if dictCount produce_functions i_type_id ≠ 0 then
    let r := dictIndex produce_functions i_type_id
    (some (r.1.fn ()), r.2)
  else
    (object, produce_functions)

/-- The two duplicate-registration warning messages emitted by the
AddProduction constructor: repeated registration of the same class versus
registration of another class with a duplicate id. -/
inductive DuplicateKind : Type
  | sameClass : DuplicateKind
  | differentClass : DuplicateKind
deriving DecidableEq

/-- A Production template argument: a class exposing a static typeId ()
and a static createObject function producing instances of interface I. -/
structure Production (I : Type) where
  typeId : StringT
  createObject : ProduceFunction I

/-- Observable outcome of running the AddProduction constructor:
assertCond is the Boolean handed to factoryAssert (Q_ASSERT halts, in a
strict/debug build, exactly when it is false); diagnostic is the
duplicate-registration warning written to warningOutput, when any; table
is the registry table after the constructor body. -/
structure AddProductionResult (I : Type) where
  assertCond : Bool
  diagnostic : Option DuplicateKind
  table : Dict (ProduceFunction I)

/-- AddProduction< Interfase, Production >::AddProduction (), lines
269-294 of Factory.h.  It evaluates
factoryAssert (produceFunctions ().count (Production::typeId ())), then,
under the same count test, writes the duplicate warning, distinguishing
the case produceFunctions () [typeId ()] == Production::createObject
(same class) from the other (different class with a duplicate id), and
finally performs produceFunctions () [typeId ()] = Production::createObject. -/
def AddProduction.construct {I : Type} [Inhabited I]
    (produce_functions : Dict (ProduceFunction I)) (P : Production I) :
    AddProductionResult I :=
  let assertCond : Bool := dictCount produce_functions P.typeId != 0
  let diagnostic : Option DuplicateKind :=
    if dictCount produce_functions P.typeId ≠ 0 then
      some
        (if (dictIndex produce_functions P.typeId).1.ptr = P.createObject.ptr
          then DuplicateKind.sameClass
          else DuplicateKind.differentClass)
    else none
  { assertCond := assertCond
    diagnostic := diagnostic
    table := dictAssign produce_functions P.typeId P.createObject }

/-- AbstractFactory::createObject< Interface > (QString i_type_id), lines
52-56 of AbstractFactory.h: returns
Factory< Interface >::createObject (i_type_id). -/
def AbstractFactory.createObject {I : Type} [Inhabited I]
    (produce_functions : Dict (ProduceFunction I)) (i_type_id : StringT) :
    Option I × Dict (ProduceFunction I) :=
  Factory.createObject produce_functions i_type_id

/-- The family of per-interface registry tables: one static
_produce_functions per instantiation Factory< Interface >, indexed here by
an interface tag i with object type Obj i. -/
def GlobalState (Intf : Type) (Obj : Intf → Type) : Type :=
  ∀ i : Intf, Dict (ProduceFunction (Obj i))

/-- Constructing AddProduction< Obj i, P > against the family of tables:
only the static table of Factory< Obj i > is touched, every other
instantiation keeps its own table, which is how distinct C++ template
instantiations hold distinct static members. -/
def AddProduction.constructGlobal {Intf : Type} {Obj : Intf → Type}
    [DecidableEq Intf] [∀ i, Inhabited (Obj i)]
    (s : GlobalState Intf Obj) (i : Intf) (P : Production (Obj i)) :
    GlobalState Intf Obj :=
  fun j =>
    if h : i = j then h ▸ (AddProduction.construct (s i) P).table else s j

/-- Concrete constructor entry used to evaluate the model. -/
def circleCtor : ProduceFunction Nat := ⟨1, fun _ => 10⟩

/-- A second concrete constructor entry with a distinct pointer identity. -/
def squareCtor : ProduceFunction Nat := ⟨2, fun _ => 20⟩

/-- Concrete production registering circleCtor under the id circle. -/
def circleProduction : Production Nat := ⟨"circle", circleCtor⟩

/-- Concrete production registering squareCtor under the id square. -/
def squareProduction : Production Nat := ⟨"square", squareCtor⟩

/-- A second production that reuses the id circle with another class. -/
def fakeCircleProduction : Production Nat := ⟨"circle", squareCtor⟩

/-- Concrete registry table holding the single entry for circle. -/
def sampleTable : Dict (ProduceFunction Nat) := [("circle", circleCtor)]

theorem dictCount_ne_zero_iff {C : Type} (m : Dict C) (k : StringT) :
    dictCount m k ≠ 0 ↔ (dictFind m k).isSome := by
  induction m with
  | nil => simp [dictCount, dictFind]
  | cons p rest ih =>
    by_cases h : p.1 == k
    · simp [dictCount, dictFind, List.filter_cons, List.find?, h]
    · simp only [dictCount, dictFind, List.filter_cons, List.find?, h] at ih ⊢
      simp only [if_false, Bool.false_eq_true]
      exact ih

theorem dictIndex_of_find_some {C : Type} [Inhabited C] {m : Dict C}
    {k : StringT} {v : C} (h : dictFind m k = some v) :
    dictIndex m k = (v, m) := by
  simp [dictIndex, h]

theorem dictFind_dictAssign_self {C : Type} (m : Dict C) (k : StringT)
    (v : C) : dictFind (dictAssign m k v) k = some v := by
  induction m with
  | nil => simp [dictAssign, dictFind, List.find?]
  | cons p rest ih =>
    by_cases h : p.1 == k
    · simp [dictAssign, dictFind, List.find?, h]
    · simp only [dictAssign, dictFind, List.find?, h, if_neg] at ih ⊢
      simp [h]
      simpa using ih

theorem dictFind_dictAssign_ne {C : Type} (m : Dict C) {k k' : StringT}
    (v : C) (h : k' ≠ k) :
    dictFind (dictAssign m k v) k' = dictFind m k' := by
  induction m with
  | nil =>
    have hne : (k == k') = false := by
      simp
      exact fun hc => h hc.symm
    simp [dictAssign, dictFind, List.find?, hne]
  | cons p rest ih =>
    by_cases hp : p.1 == k
    · have hkk : p.1 = k := by simpa using hp
      have hne : ¬ (k == k') := by
        simpa using fun hc => h hc.symm
      simp [dictAssign, dictFind, List.find?, hp, hne, hkk]
    · simp only [dictAssign, dictFind, List.find?, hp, if_neg] at ih ⊢
      by_cases hq : p.1 == k'
      · simp [List.find?, hq, hp]
      · simpa [List.find?, hq, hp] using ih

theorem createObject_eq_of_find_some {I : Type} [Inhabited I]
    {table : Dict (ProduceFunction I)} {id : StringT}
    {f : ProduceFunction I} (h : dictFind table id = some f) :
    Factory.createObject table id = (some (f.fn ()), table) := by
  have hc : dictCount table id ≠ 0 := by
    rw [dictCount_ne_zero_iff, h]; rfl
  simp [Factory.createObject, hc, dictIndex_of_find_some h]

theorem createObject_eq_of_find_none {I : Type} [Inhabited I]
    {table : Dict (ProduceFunction I)} {id : StringT}
    (h : dictFind table id = none) :
    Factory.createObject table id = (none, table) := by
  have hc : ¬ dictCount table id ≠ 0 := by
    rw [dictCount_ne_zero_iff, h]; simp
  simp [Factory.createObject, hc]

theorem construct_table_eq {I : Type} [Inhabited I]
    (table : Dict (ProduceFunction I)) (P : Production I) :
    (AddProduction.construct table P).table
      = dictAssign table P.typeId P.createObject := rfl

/-- Claim C1: for every interface I and identifier id registered in
Factory< I > (the table maps id to a constructor function),
Factory.createObject id invokes exactly that stored constructor function
and returns its result, a freshly constructed instance of I. -/
theorem createObject_invokes_registered {I : Type} [Inhabited I]
    (table : Dict (ProduceFunction I)) (id : StringT)
    (f : ProduceFunction I) (h : dictFind table id = some f) :
    (Factory.createObject table id).1 = some (f.fn ()) := by
  rw [createObject_eq_of_find_some h]

/-- Witness for C1: the table mapping circle to circleCtor resolves circle
to the instance produced by invoking circleCtor. -/
theorem createObject_invokes_registered_witness :
    dictFind sampleTable "circle" = some circleCtor ∧
    (Factory.createObject sampleTable "circle").1 = some (circleCtor.fn ()) :=
  ⟨rfl, createObject_invokes_registered sampleTable "circle" circleCtor rfl⟩

/-- Claim C2: for every interface I and identifier id not present in the
table of Factory< I >, Factory.createObject id returns the absent result
(the nullptr initialisation of object), never a default-constructed
instance; the function is total, so no throw or abort occurs. -/
theorem createObject_unregistered_absent {I : Type} [Inhabited I]
    (table : Dict (ProduceFunction I)) (id : StringT)
    (h : dictFind table id = none) :
    (Factory.createObject table id).1 = none := by
  rw [createObject_eq_of_find_none h]

/-- Witness for C2: the table holding only circle yields the absent result
for the unregistered identifier triangle. -/
theorem createObject_unregistered_absent_witness :
    dictFind sampleTable "triangle" = none ∧
    (Factory.createObject sampleTable "triangle").1 = none :=
  ⟨rfl, createObject_unregistered_absent sampleTable "triangle" rfl⟩

/-- Claim C3: when the identifier of P is already mapped in Factory< I >,
constructing AddProduction emits a duplicate-registration diagnostic and
overwrites the mapping, so a subsequent createObject on that identifier
invokes the last-registered constructor, the createObject of P.  In
non-strict mode factoryAssert is a no-op and the constructor body runs to
completion, which the totality of the model reflects. -/
theorem addProduction_duplicate_warns_and_overwrites {I : Type}
    [Inhabited I] (table : Dict (ProduceFunction I)) (P : Production I)
    (g : ProduceFunction I) (h : dictFind table P.typeId = some g) :
    (AddProduction.construct table P).diagnostic.isSome = true ∧
    (Factory.createObject (AddProduction.construct table P).table
        P.typeId).1 = some (P.createObject.fn ()) := by
  constructor
  · have hc : dictCount table P.typeId ≠ 0 := by
      rw [dictCount_ne_zero_iff, h]; rfl
    simp [AddProduction.construct, hc]
  · have hf : dictFind (AddProduction.construct table P).table P.typeId
        = some P.createObject := by
      rw [construct_table_eq]
      exact dictFind_dictAssign_self table P.typeId P.createObject
    rw [createObject_eq_of_find_some hf]

/-- Witness for C3: registering fakeCircleProduction over the existing
circle entry warns and makes circle resolve to the new constructor. -/
theorem addProduction_duplicate_warns_and_overwrites_witness :
    dictFind sampleTable fakeCircleProduction.typeId = some circleCtor ∧
    ((AddProduction.construct sampleTable
        fakeCircleProduction).diagnostic.isSome = true ∧
      (Factory.createObject
          (AddProduction.construct sampleTable fakeCircleProduction).table
          fakeCircleProduction.typeId).1
        = some (fakeCircleProduction.createObject.fn ())) :=
  ⟨rfl, addProduction_duplicate_warns_and_overwrites sampleTable
    fakeCircleProduction circleCtor rfl⟩

/-- Claim C4 is a code bug.  The claim states that in a strict/debug build
the assertion in the AddProduction constructor holds when the identifier
of P is not yet registered and is triggered only by a duplicate
registration.  The source passes
produceFunctions ().count (Production::typeId ()) itself to factoryAssert,
without the negation the surrounding comment calls for, so the condition
is false on a fresh registration (Q_ASSERT would halt a debug build
there) and true on a duplicate.  This theorem evaluates the constructor
at both inputs, exhibiting the inversion. -/
theorem addProduction_assert_condition_inverted :
    (AddProduction.construct ([] : Dict (ProduceFunction Nat))
        circleProduction).assertCond = false ∧
    (AddProduction.construct
        (AddProduction.construct ([] : Dict (ProduceFunction Nat))
          circleProduction).table circleProduction).assertCond = true :=
  ⟨rfl, rfl⟩

/-- Claim C5: for every interface I and identifier id,
AbstractFactory.createObject returns exactly the result of
Factory.createObject on the same table; the facade carries no state of
its own, which the model reflects by giving it no state. -/
theorem abstractFactory_createObject_delegates {I : Type} [Inhabited I]
    (table : Dict (ProduceFunction I)) (id : StringT) :
    AbstractFactory.createObject table id
      = Factory.createObject table id := rfl

/-- Claim C6: registering a production for the interface tagged i never
changes the table of the factory for a distinct interface tag j: the
table of j is unchanged and every lookup against it, in particular one
for the identifier of P, returns what it returned before. -/
theorem addProduction_cross_interface_isolated {Intf : Type}
    {Obj : Intf → Type} [DecidableEq Intf] [∀ i, Inhabited (Obj i)]
    (s : GlobalState Intf Obj) (i : Intf) (P : Production (Obj i))
    (j : Intf) (id : StringT) (h : i ≠ j) :
    AddProduction.constructGlobal s i P j = s j ∧
    (Factory.createObject (AddProduction.constructGlobal s i P j) id).1
      = (Factory.createObject (s j) id).1 := by
  have ht : AddProduction.constructGlobal s i P j = s j := by
    simp [AddProduction.constructGlobal, h]
  exact ⟨ht, by rw [ht]⟩

/-- Witness for C6: registering squareProduction against the interface
tagged true leaves the table of the interface tagged false unchanged, and
square stays unresolvable there. -/
theorem addProduction_cross_interface_isolated_witness :
    True ≠ False ∧
    (AddProduction.constructGlobal
        (fun _ => sampleTable : GlobalState Bool (fun _ => Nat)) true
        squareProduction false = sampleTable ∧
      (Factory.createObject
          (AddProduction.constructGlobal
            (fun _ => sampleTable : GlobalState Bool (fun _ => Nat)) true
            squareProduction false) "square").1
        = (Factory.createObject sampleTable "square").1) :=
  ⟨by simp, addProduction_cross_interface_isolated
    (fun _ => sampleTable) true squareProduction false "square"
    (by decide)⟩

/-- Claim C7: after two productions with distinct identifiers are both
registered, each identifier resolves to an instance produced by its own
constructor: registration is a round trip visible to every subsequent
lookup. -/
theorem registrations_round_trip {I : Type} [Inhabited I]
    (table : Dict (ProduceFunction I)) (P1 P2 : Production I)
    (h : P1.typeId ≠ P2.typeId) :
    (Factory.createObject
        (AddProduction.construct
          (AddProduction.construct table P1).table P2).table
        P1.typeId).1 = some (P1.createObject.fn ()) ∧
    (Factory.createObject
        (AddProduction.construct
          (AddProduction.construct table P1).table P2).table
        P2.typeId).1 = some (P2.createObject.fn ()) := by
  have h2 : dictFind (AddProduction.construct
      (AddProduction.construct table P1).table P2).table P2.typeId
      = some P2.createObject := by
    rw [construct_table_eq]
    exact dictFind_dictAssign_self _ _ _
  have h1 : dictFind (AddProduction.construct
      (AddProduction.construct table P1).table P2).table P1.typeId
      = some P1.createObject := by
    rw [construct_table_eq, dictFind_dictAssign_ne _ _ h,
      construct_table_eq]
    exact dictFind_dictAssign_self _ _ _
  exact ⟨by rw [createObject_eq_of_find_some h1],
    by rw [createObject_eq_of_find_some h2]⟩

/-- Witness for C7: registering circleProduction and then
squareProduction into an empty factory makes circle resolve to the circle
constructor and square to the square constructor. -/
theorem registrations_round_trip_witness :
    circleProduction.typeId ≠ squareProduction.typeId ∧
    ((Factory.createObject
        (AddProduction.construct
          (AddProduction.construct ([] : Dict (ProduceFunction Nat))
            circleProduction).table squareProduction).table
        circleProduction.typeId).1
      = some (circleProduction.createObject.fn ()) ∧
    (Factory.createObject
        (AddProduction.construct
          (AddProduction.construct ([] : Dict (ProduceFunction Nat))
            circleProduction).table squareProduction).table
        squareProduction.typeId).1
      = some (squareProduction.createObject.fn ())) :=
  ⟨by decide, registrations_round_trip [] circleProduction
    squareProduction (by decide)⟩

/-- Claim C8: when AddProduction detects a duplicate registration, the
emitted diagnostic compares producer identity: it reports a repeated
registration of the same class exactly when the stored constructor equals
the createObject of P, and another class under a duplicate id
otherwise. -/
theorem duplicate_diagnostic_compares_identity {I : Type} [Inhabited I]
    (table : Dict (ProduceFunction I)) (P : Production I)
    (g : ProduceFunction I) (h : dictFind table P.typeId = some g) :
    (AddProduction.construct table P).diagnostic
      = some (if g.ptr = P.createObject.ptr then DuplicateKind.sameClass
          else DuplicateKind.differentClass) := by
  have hc : dictCount table P.typeId ≠ 0 := by
    rw [dictCount_ne_zero_iff, h]; rfl
  simp [AddProduction.construct, hc, dictIndex_of_find_some h]

/-- Witness for C8: re-registering circleProduction over its own entry
yields the same-class diagnostic, since the stored pointer matches. -/
theorem duplicate_diagnostic_compares_identity_witness :
    dictFind sampleTable circleProduction.typeId = some circleCtor ∧
    (AddProduction.construct sampleTable circleProduction).diagnostic
      = some (if circleCtor.ptr = circleProduction.createObject.ptr
          then DuplicateKind.sameClass else DuplicateKind.differentClass) :=
  ⟨rfl, duplicate_diagnostic_compares_identity sampleTable
    circleProduction circleCtor rfl⟩

/-- Claim C9: for every identifier, registered or not,
Factory.createObject leaves the registry table unchanged, even though the
lookup goes through the potentially inserting index operator: the
insertion path is unreachable because the index operator only runs under
the count guard. -/
theorem createObject_table_unchanged {I : Type} [Inhabited I]
    (table : Dict (ProduceFunction I)) (id : StringT) :
    (Factory.createObject table id).2 = table := by
  by_cases h : dictCount table id ≠ 0
  · have hs : (dictFind table id).isSome :=
      (dictCount_ne_zero_iff table id).mp h
    obtain ⟨v, hv⟩ := Option.isSome_iff_exists.mp hs
    rw [createObject_eq_of_find_some hv]
  · simp [Factory.createObject, h]

/-- Claim C10: constructing AddProduction modifies the table only at the
typeId of P: the entry under every other identifier is unchanged, so each
registration preserves all previously registered pairs with different
identifiers. -/
theorem addProduction_preserves_other_ids {I : Type} [Inhabited I]
    (table : Dict (ProduceFunction I)) (P : Production I) (id : StringT)
    (h : id ≠ P.typeId) :
    dictFind (AddProduction.construct table P).table id
      = dictFind table id := by
  rw [construct_table_eq]
  exact dictFind_dictAssign_ne table P.createObject h

/-- Witness for C10: registering squareProduction leaves the existing
circle entry of the table untouched. -/
theorem addProduction_preserves_other_ids_witness :
    "circle" ≠ squareProduction.typeId ∧
    dictFind (AddProduction.construct sampleTable squareProduction).table
        "circle" = dictFind sampleTable "circle" :=
  ⟨by decide, addProduction_preserves_other_ids sampleTable
    squareProduction "circle" (by decide)⟩
